import Mathlib

/-!
Verification of the cheque-processing workflow orchestrator.

The development shallowly embeds the orchestrator of
`cheque_processing_langgraph`: the audit trail (`audit/trail.py`), the
programmatic date validator (`processing/ocr_extraction.py`), the mock
account validator (`processing/validation.py`), the behavioral-anomaly
lookup (`fraud_detection/behavior_analysis.py`), and the LangGraph node
and routing functions of `__main__.py`.

Delegated model-service calls (readability, tampering, behavioral scoring,
signature comparison) are opaque collaborators: each is modelled as an
environment-supplied response of type `Except String (Bool × String)`,
where `Except.ok (verdict, reason)` is a decoded response and
`Except.error` is an unreachable/unparseable service, exactly the two
cases the Python wrappers distinguish with their `try/except` blocks.
Python dictionary keys that may be absent are modelled with `Option`
(a key present with value `None` is conflated with an absent key; no
modelled code path distinguishes the two).  Python `datetime.now()` is
modelled by an explicit `today : PyDate` parameter.
-/

deriving instance DecidableEq for Except

namespace ChequeProc

/-- Stand-in for an in-memory image (`numpy.ndarray`); only identity and
presence matter to the orchestrator. -/
abbrev Image := Nat

/-- Audit trail of one case (`audit/trail.py`, class `AuditTrail`): a cheque
id plus two ordered string lists, `logs` and `anomalies`. -/
structure AuditTrail where
  cheque_id : String
  logs : List String
  anomalies : List String
  deriving DecidableEq

/-- String stored by `AuditTrail.log_step`
(`f"Step: {step_name}, Status: {status}, Summary: {summary}"`). -/
def logE (step_name status summary : String) : String :=
  "Step: " ++ step_name ++ ", Status: " ++ status ++ ", Summary: " ++ summary

/-- String stored by `AuditTrail.highlight_anomaly`
(`f"Source: {anomaly_source}, Details: {details}"`). -/
def anomE (anomaly_source details : String) : String :=
  "Source: " ++ anomaly_source ++ ", Details: " ++ details

/-- `AuditTrail.log_step`: appends one formatted entry to `logs`
(the `logging.info` emission is a side channel, not state). -/
def AuditTrail.log_step (t : AuditTrail) (step_name status summary : String) : AuditTrail :=
  { t with logs := t.logs ++ [logE step_name status summary] }

/-- `AuditTrail.highlight_anomaly`: appends one formatted entry to
`anomalies`. -/
def AuditTrail.highlight_anomaly (t : AuditTrail) (anomaly_source details : String) : AuditTrail :=
  { t with anomalies := t.anomalies ++ [anomE anomaly_source details] }

/-- `AuditTrail.generate_llm_summary_report`: the formatter capability is
modelled as a function of the cheque id, the joined step log and the joined
anomaly log, returning `Except.error` when the underlying model call fails.
The Python method has no exception handler around `chain.invoke`, so a
formatter failure is returned as an `Except.error` (a propagated
exception), while an empty step log short-circuits to the fixed string. -/
def AuditTrail.generate_llm_summary_report (t : AuditTrail)
    (llm : String → String → String → Except String String) : Except String String :=
  if t.logs = [] then Except.ok "No processing steps were logged."
  else
    let full_log := String.intercalate "\n" t.logs
    let anomaly_log := if t.anomalies = [] then "None" else String.intercalate "\n" t.anomalies
    llm t.cheque_id full_log anomaly_log

/-- Payer-directory record (`PAYER_DATABASE` values in `__main__.py`). -/
structure PayerRecord where
  payer_name : String
  payer_signature_path : String
  deriving DecidableEq

/-- `PAYER_DATABASE` of `__main__.py`. -/
def PAYER_DATABASE : List (String × PayerRecord) :=
  [("12345678", ⟨"Apple Tan", "reference_signature.png"⟩),
   ("12345678901", ⟨"Elton Lim", "elton_lim_signature.png"⟩),
   ("55556666", ⟨"Susan Wong", "susan_wong_signature.png"⟩)]

/-- Python `dict.get` on the payer directory. -/
def dbGet (db : List (String × PayerRecord)) (k : String) : Option PayerRecord :=
  (db.find? (fun p => p.1 == k)).map Prod.snd

/-- Python f-string rendering of an optional string (`None` prints as
literal `None`). -/
def pyShowOpt : Option String → String
  | none => "None"
  | some s => s

/-- Python truthiness of an optional string (`None` and `""` are falsy). -/
def pyTruthy : Option String → Bool
  | none => false
  | some s => s ≠ ""

/-- Python `str.strip()`: drops leading and trailing whitespace. -/
def pyStrip (s : String) : String :=
  String.mk (((s.data.dropWhile Char.isWhitespace).reverse.dropWhile Char.isWhitespace).reverse)

/-- Guarded payer lookup
(`payer_database.get(account_number.strip()) if account_number else None`). -/
def pyLookup (db : List (String × PayerRecord)) (acct : Option String) : Option PayerRecord :=
  match acct with
  | none => none
  | some a => if a = "" then none else dbGet db (pyStrip a)

/-- Result dictionary of `llm_extract_and_validate_cheque_data`, restricted
to the keys the orchestrator reads downstream; `none` models an absent key. -/
structure ChequeData where
  error : Option String := none
  amount : Option String := none
  payee : Option String := none
  amount_in_words : Option String := none
  payer_account_number : Option String := none
  account_number : Option String := none
  is_date_valid : Option Bool := none
  is_amount_consistent : Option Bool := none
  date_validation_reason : Option String := none
  validation_reason : Option String := none
  signature_image : Option Image := none
  deriving DecidableEq

/-- The LangGraph `ChequeState` dictionary of `__main__.py`; keys that the
initial state lacks start at `none` / `false` / `[]`. -/
structure ChequeState where
  project_root : String
  image : Image
  cheque_data : ChequeData
  signature_image : Option Image
  amount_in_words : Option String
  audit_trail : AuditTrail
  is_readable : Bool
  fraud_detected : Bool
  final_decision : Option String
  feedback : List String
  deriving DecidableEq

/-- Initial LangGraph invocation state: only `image` and `project_root`
are populated (`app.invoke({"image": ..., "project_root": ...})`). -/
def initialState (project_root : String) (image : Image) : ChequeState :=
  { project_root := project_root, image := image, cheque_data := {},
    signature_image := none, amount_in_words := none,
    audit_trail := ⟨"", [], []⟩, is_readable := false,
    fraud_detected := false, final_decision := none, feedback := [] }

/-- `llm_check_readability` (`image_enhancement/enhancer.py`): decoded
response on success, conservative `(false, ...)` when the service call
raises. -/
def llm_check_readability (llmResp : Except String (Bool × String)) : Bool × String :=
  match llmResp with
  | Except.ok p => p
  | Except.error _ => (false, "Failed to analyze image quality.")

/-- `llm_detect_tampering` (`fraud_detection/tampering_detection.py`):
decoded response on success, conservative `(true, ...)` on failure. -/
def llm_detect_tampering (llmResp : Except String (Bool × String)) : Bool × String :=
  match llmResp with
  | Except.ok p => p
  | Except.error _ => (true, "Analysis failed, flagging for review.")

/-- `llm_analyze_historical_behavior`
(`fraud_detection/behavior_analysis.py`): a missing payer-directory entry
is itself an anomaly, before any model call; otherwise the decoded model
response is used, with conservative `(true, ...)` when the call raises. -/
def llm_analyze_historical_behavior (cheque_data : ChequeData)
    (payer_database : List (String × PayerRecord))
    (llmResp : Except String (Bool × String)) : Bool × String :=
  let account_number := cheque_data.account_number
  let payer_record := pyLookup payer_database account_number
  match payer_record with
  | none =>
      (true, "Account number '" ++ pyShowOpt account_number ++ "' not found in payer database.")
  | some _ =>
      match llmResp with
      | Except.ok p => p
      | Except.error _ => (true, "Behavioral analysis failed.")

/-- `llm_compare_signatures` (`fraud_detection/signature_comparison.py`):
guard for missing images, then the decoded response, with conservative
`(false, ...)` when the model call raises. -/
def llm_compare_signatures (cheque_signature reference_signature : Option Image)
    (llmResp : Except String (Bool × String)) : Bool × String :=
  if cheque_signature.isNone || reference_signature.isNone then
    (false, "One of the signature images is missing.")
  else
    match llmResp with
    | Except.ok p => p
    | Except.error _ => (false, "Signature comparison analysis failed due to an error.")

/-- `validate_account_details` (`processing/validation.py`): the mock treats
a non-empty account number containing the substring `123` as valid. -/
def validate_account_details (account_number : String) : Bool × String :=
  if account_number ≠ "" ∧ "123".data <:+: account_number.data then
    (true, "Account details are valid.")
  else
    (false, "Invalid or closed account.")

/-- Environment responses consumed by `run_fraud_detection`: the tampering,
behavioral and signature model responses, and the reference-signature image
produced by `cv2.imread` (`none` models a load failure, which the node
converts to a caught `FileNotFoundError`). -/
structure FraudOracles where
  tamperLLM : Except String (Bool × String)
  behaviorLLM : Except String (Bool × String)
  refSigImage : Option Image
  sigLLM : Except String (Bool × String)

/-- Verdict of check 1 in `run_fraud_detection`:
`not state["cheque_data"].get("is_date_valid", True)`. -/
def dateBad (cd : ChequeData) : Bool := !(cd.is_date_valid.getD true)

/-- Verdict of check 2 in `run_fraud_detection`:
`not state["cheque_data"].get("is_amount_consistent", True)`. -/
def amountBad (cd : ChequeData) : Bool := !(cd.is_amount_consistent.getD true)

/-- Verdict and reason of check 3 (tampering) as consumed by
`run_fraud_detection`. -/
def tamperRes (o : FraudOracles) : Bool × String := llm_detect_tampering o.tamperLLM

/-- Verdict and reason of check 4 (behavior) as consumed by
`run_fraud_detection`. -/
def behaviorRes (cd : ChequeData) (o : FraudOracles) : Bool × String :=
  llm_analyze_historical_behavior cd PAYER_DATABASE o.behaviorLLM

/-- Decoded signature-comparison response as consumed inside the signature
block of `run_fraud_detection` (both images are present at the call site). -/
def sigCmp (o : FraudOracles) : Bool × String :=
  match o.sigLLM with
  | Except.ok p => p
  | Except.error _ => (false, "Signature comparison analysis failed due to an error.")

/-- Outcome classification of the signature-verification block of
`run_fraud_detection` (lines 104-129 of `__main__.py`), one constructor per
source code path. -/
inductive SigOutcome where
  | skipped
  | notFound (acct : String)
  | loadError (path : String)
  | mismatch (reason : String)
  | matched (reason : String)
  deriving DecidableEq

/-- Which signature-block path a given state and environment take. -/
def sigOutcome (cd : ChequeData) (sig : Option Image) (project_root : String)
    (o : FraudOracles) : SigOutcome :=
  match sig, cd.payer_account_number with
  | some _, some acct =>
    if acct = "" then SigOutcome.skipped
    else
      match dbGet PAYER_DATABASE (pyStrip acct) with
      | none => SigOutcome.notFound acct
      | some rec =>
        match o.refSigImage with
        | none => SigOutcome.loadError (project_root ++ "/" ++ rec.payer_signature_path)
        | some _ =>
          if !(sigCmp o).1 then SigOutcome.mismatch (sigCmp o).2
          else SigOutcome.matched (sigCmp o).2
  | _, _ => SigOutcome.skipped

/-- Whether the signature block sets `fraud_found`: exactly the not-found
and mismatch paths do; a reference-load error records an anomaly without
setting the flag, and a skipped or matched signature sets nothing. -/
def sigBad (cd : ChequeData) (sig : Option Image) (project_root : String)
    (o : FraudOracles) : Bool :=
  match sigOutcome cd sig project_root o with
  | SigOutcome.notFound _ => true
  | SigOutcome.mismatch _ => true
  | _ => false

/-- Anomaly entries the signature block appends. -/
def sigAnomsDelta (cd : ChequeData) (sig : Option Image) (project_root : String)
    (o : FraudOracles) : List String :=
  match sigOutcome cd sig project_root o with
  | SigOutcome.notFound acct =>
      [anomE "Signature Verification" ("Payer account '" ++ acct ++ "' not found in database.")]
  | SigOutcome.loadError path =>
      [anomE "Signature Verification" ("Error during comparison: Signature file not found at " ++ path)]
  | SigOutcome.mismatch reason => [anomE "Signature Verification" reason]
  | _ => []

/-- Step-log entries the signature block appends. -/
def sigLogsDelta (cd : ChequeData) (sig : Option Image) (project_root : String)
    (o : FraudOracles) : List String :=
  match sigOutcome cd sig project_root o with
  | SigOutcome.matched reason => [logE "Signature Verification" "Success" reason]
  | _ => []

/-- Final `fraud_found` of `run_fraud_detection`: the (left-associated,
never short-circuited) OR of the five check verdicts, where the signature
contribution is exactly the fraud-setting paths of the signature block. -/
def fraudOr (cd : ChequeData) (sig : Option Image) (project_root : String)
    (o : FraudOracles) : Bool :=
  dateBad cd || amountBad cd || (tamperRes o).1 || (behaviorRes cd o).1 ||
    sigBad cd sig project_root o

/-- Anomaly entries appended by the four non-signature checks of
`run_fraud_detection`, in source order. -/
def fraudAnomsDelta4 (cd : ChequeData) (o : FraudOracles) : List String :=
  (if dateBad cd then
      [anomE "Date Validation" (cd.date_validation_reason.getD "The extracted date is invalid.")]
    else []) ++
  (if amountBad cd then
      [anomE "Amount Verification" (cd.validation_reason.getD "Amounts do not match.")]
    else []) ++
  (if (tamperRes o).1 then [anomE "Tampering Detection" (tamperRes o).2] else []) ++
  (if (behaviorRes cd o).1 then [anomE "Behavior Analysis" (behaviorRes cd o).2] else [])

/-- All anomaly entries appended by one `run_fraud_detection` call. -/
def fraudAnomsDelta (cd : ChequeData) (sig : Option Image) (project_root : String)
    (o : FraudOracles) : List String :=
  fraudAnomsDelta4 cd o ++ sigAnomsDelta cd sig project_root o

/-- All step-log entries appended by one `run_fraud_detection` call: the
signature success log (when taken) followed by the always-written
`Fraud Detection ... Completed` summary. -/
def fraudLogsDelta (cd : ChequeData) (sig : Option Image) (project_root : String)
    (o : FraudOracles) : List String :=
  sigLogsDelta cd sig project_root o ++
    [logE "Fraud Detection" "Completed"
      ("Fraud found: " ++ (if fraudOr cd sig project_root o then "True" else "False"))]

/-- Date-validity check of `run_fraud_detection` (`__main__.py` lines
84-87), acting on the running `(audit_trail, fraud_found)` pair. -/
def dateStep (cd : ChequeData) (p : AuditTrail × Bool) : AuditTrail × Bool :=
  if dateBad cd then
    (p.1.highlight_anomaly "Date Validation"
      (cd.date_validation_reason.getD "The extracted date is invalid."), true)
  else p

/-- Amount-consistency check of `run_fraud_detection` (lines 89-92). -/
def amountStep (cd : ChequeData) (p : AuditTrail × Bool) : AuditTrail × Bool :=
  if amountBad cd then
    (p.1.highlight_anomaly "Amount Verification"
      (cd.validation_reason.getD "Amounts do not match."), true)
  else p

/-- Tampering check of `run_fraud_detection` (lines 94-97). -/
def tamperStep (o : FraudOracles) (p : AuditTrail × Bool) : AuditTrail × Bool :=
  if (tamperRes o).1 then
    (p.1.highlight_anomaly "Tampering Detection" (tamperRes o).2, true)
  else p

/-- Behavioral-anomaly check of `run_fraud_detection` (lines 99-102). -/
def behaviorStep (cd : ChequeData) (o : FraudOracles) (p : AuditTrail × Bool) :
    AuditTrail × Bool :=
  if (behaviorRes cd o).1 then
    (p.1.highlight_anomaly "Behavior Analysis" (behaviorRes cd o).2, true)
  else p

/-- Signature-verification block of `run_fraud_detection` (lines 104-129):
skipped when the extracted signature is absent or the payer account number
is falsy; otherwise directory lookup, reference load (a `None` from
`cv2.imread` raises a `FileNotFoundError` caught on line 128, which
records an anomaly without touching `fraud_found`), then the delegated
comparison. -/
def sigStep (cd : ChequeData) (sig : Option Image) (project_root : String)
    (o : FraudOracles) (p : AuditTrail × Bool) : AuditTrail × Bool :=
  match sig, cd.payer_account_number with
  | some sigImg, some acct =>
    if acct = "" then p
    else
      match dbGet PAYER_DATABASE (pyStrip acct) with
      | none =>
        (p.1.highlight_anomaly "Signature Verification"
          ("Payer account '" ++ acct ++ "' not found in database."), true)
      | some rec =>
        match o.refSigImage with
        | none =>
          (p.1.highlight_anomaly "Signature Verification"
            ("Error during comparison: Signature file not found at " ++
              project_root ++ "/" ++ rec.payer_signature_path), p.2)
        | some refImg =>
          let cmp := llm_compare_signatures (some sigImg) (some refImg) o.sigLLM
          if !cmp.1 then
            (p.1.highlight_anomaly "Signature Verification" cmp.2, true)
          else
            (p.1.log_step "Signature Verification" "Success" cmp.2, p.2)
  | _, _ => p

/-- LangGraph node `run_fraud_detection` (`__main__.py` lines 80-132):
the five checks run in sequence on the `(audit_trail, fraud_found)` pair
starting from `fraud_found = False`, none of them short-circuiting, and
the summary step is logged last. -/
def run_fraud_detection (state : ChequeState) (o : FraudOracles) : ChequeState :=
  let cd := state.cheque_data
  let p1 := dateStep cd (state.audit_trail, false)
  let p2 := amountStep cd p1
  let p3 := tamperStep o p2
  let p4 := behaviorStep cd o p3
  let p5 := sigStep cd state.signature_image state.project_root o p4
  let t := p5.1.log_step "Fraud Detection" "Completed"
    ("Fraud found: " ++ (if p5.2 then "True" else "False"))
  { state with fraud_detected := p5.2, audit_trail := t }

/-- Environment responses consumed by one full workflow run. -/
structure Oracles where
  cheque_id : String
  readabilityLLM : Except String (Bool × String)
  extraction : ChequeData
  fraud : FraudOracles

/-- LangGraph node `start_processing`: fresh audit trail, `Start` step
logged, empty feedback list. -/
def start_processing (state : ChequeState) (cheque_id : String) : ChequeState :=
  let audit_trail : AuditTrail := ⟨cheque_id, [], []⟩
  let audit_trail := audit_trail.log_step "Start" "Success" "Image data received."
  { state with audit_trail := audit_trail, feedback := [] }

/-- LangGraph node `check_image_quality`. -/
def check_image_quality (state : ChequeState)
    (llmResp : Except String (Bool × String)) : ChequeState :=
  let r := llm_check_readability llmResp
  if !r.1 then
    { state with audit_trail := state.audit_trail.highlight_anomaly "Image Quality" r.2,
                 is_readable := false }
  else
    { state with
        audit_trail :=
          state.audit_trail.log_step "Image Quality Check" "Success"
            "Gemini approved image quality.",
        is_readable := true }

/-- Failure condition of `extract_data`:
`"error" in data or not all(k in data for k in ["amount", "payee", "payer_account_number", "is_date_valid"])`. -/
def extractionFailed (data : ChequeData) : Bool :=
  data.error.isSome ||
    !(data.amount.isSome && data.payee.isSome && data.payer_account_number.isSome &&
      data.is_date_valid.isSome)

/-- LangGraph node `extract_data`. -/
def extract_data (state : ChequeState) (data : ChequeData) : ChequeState :=
  if extractionFailed data then
    let err_msg := data.error.getD "Gemini Vision failed to extract/validate all key fields."
    { state with
        audit_trail := state.audit_trail.log_step "Extraction & Validation" "Failed" err_msg,
        final_decision := some "MANUAL_REVIEW" }
  else
    { state with
        audit_trail :=
          state.audit_trail.log_step "Extraction & Validation" "Success"
            "Data extracted and validated.",
        cheque_data := data, signature_image := data.signature_image,
        amount_in_words := data.amount_in_words }

/-- LangGraph node `validate_and_process`. -/
def validate_and_process (state : ChequeState) : ChequeState :=
  let data := state.cheque_data
  let v := validate_account_details (data.payer_account_number.getD "")
  if !v.1 then
    { state with
        audit_trail := state.audit_trail.highlight_anomaly "Account Validation" v.2,
        final_decision := some "REJECT" }
  else
    { state with
        audit_trail := state.audit_trail.log_step "Account Validation" "Success" "Account is valid.",
        feedback := state.feedback ++ ["Cheque processed successfully."],
        final_decision := some "APPROVE" }

/-- LangGraph node `manual_review`
(`lambda state: {**state, "final_decision": "MANUAL_REVIEW"}`). -/
def manual_review_node (state : ChequeState) : ChequeState :=
  { state with final_decision := some "MANUAL_REVIEW" }

/-- Target of a conditional edge: the `END` sentinel or a named node. -/
inductive Route where
  | toEnd
  | toNode (name : String)
  deriving DecidableEq

/-- Routing function `route_after_start`. -/
def route_after_start (_ : ChequeState) : Route := Route.toNode "check_image_quality"

/-- Routing function `route_after_quality_check`
(`END if not state.get("is_readable") else "extract_data"`). -/
def route_after_quality_check (state : ChequeState) : Route :=
  if !state.is_readable then Route.toEnd else Route.toNode "extract_data"

/-- Routing function `route_after_extraction`
(`END if state.get("final_decision") == "MANUAL_REVIEW" else "run_fraud_detection"`). -/
def route_after_extraction (state : ChequeState) : Route :=
  if state.final_decision = some "MANUAL_REVIEW" then Route.toEnd
  else Route.toNode "run_fraud_detection"

/-- Routing function `route_after_fraud_check`
(`"manual_review" if state.get("fraud_detected") else "validate_and_process"`). -/
def route_after_fraud_check (state : ChequeState) : Route :=
  if state.fraud_detected then Route.toNode "manual_review"
  else Route.toNode "validate_and_process"

/-- State reached after the `start`, `check_image_quality` and
`extract_data` nodes on a given run. -/
def stateAfterExtract (project_root : String) (image : Image) (o : Oracles) : ChequeState :=
  extract_data
    (check_image_quality (start_processing (initialState project_root image) o.cheque_id)
      o.readabilityLLM)
    o.extraction

/-- One full run of the compiled LangGraph workflow of `build_graph`:
`start → check_image_quality → extract_data → run_fraud_detection →
{manual_review | validate_and_process} → END`, dispatching on the routing
functions exactly as the conditional edges do. -/
def runWorkflow (project_root : String) (image : Image) (o : Oracles) : ChequeState :=
  let s1 := start_processing (initialState project_root image) o.cheque_id
  let s2 := check_image_quality s1 o.readabilityLLM
  match route_after_quality_check s2 with
  | Route.toEnd => s2
  | Route.toNode _ =>
    let s3 := extract_data s2 o.extraction
    match route_after_extraction s3 with
    | Route.toEnd => s3
    | Route.toNode _ =>
      let s4 := run_fraud_detection s3 o.fraud
      if route_after_fraud_check s4 = Route.toNode "manual_review" then manual_review_node s4
      else validate_and_process s4

/-- Calendar date as handled by Python `datetime.date`. -/
structure PyDate where
  year : Nat
  month : Nat
  day : Nat
  deriving DecidableEq

/-- Gregorian leap-year test. -/
def isLeap (y : Nat) : Bool := y % 4 == 0 && (y % 100 != 0 || y % 400 == 0)

/-- Number of days of a month. -/
def daysInMonth (y m : Nat) : Nat :=
  if m = 2 then (if isLeap y then 29 else 28)
  else if m = 4 || m = 6 || m = 9 || m = 11 then 30
  else 31

/-- Whether `(y, m, d)` is a real `datetime.date` (year within Python's
`MINYEAR..MAXYEAR`). -/
def validDate (y m d : Nat) : Bool :=
  1 ≤ y && y ≤ 9999 && 1 ≤ m && m ≤ 12 && 1 ≤ d && d ≤ daysInMonth y m

/-- Day number of a date (standard days-from-civil algorithm, shifted to a
nonnegative origin): order-isomorphic to Python `datetime.date` ordering,
with `timedelta(days=n)` adding `n`. -/
def daysFromCivil (dt : PyDate) : Nat :=
  let y := if dt.month ≤ 2 then dt.year - 1 else dt.year
  let era := y / 400
  let yoe := y % 400
  let mp := (dt.month + 9) % 12
  let doy := (153 * mp + 2) / 5 + dt.day - 1
  let doe := yoe * 365 + yoe / 4 - yoe / 100 + doy
  era * 146097 + doe

/-- Numeric value of a digit character. -/
def digitVal (c : Char) : Nat := c.toNat - 48

/-- Numeric value of a digit string. -/
def digitsVal (cs : List Char) : Nat := cs.foldl (fun a c => a * 10 + digitVal c) 0

/-- Python `int()` restricted to plain digit strings (the only shape the
date validator feeds it); any other string raises, modelled as `none`. -/
def pyIntDigits (cs : List Char) : Option Nat :=
  if !cs.isEmpty && cs.all Char.isDigit then some (digitsVal cs) else none

/-- Python `datetime.strptime(s, "%d%m%Y").date()` on an 8-character
string: positional 2-digit day, 2-digit month, 4-digit year, `none` on a
non-digit character or an invalid calendar date (the raised `ValueError`). -/
def strptimeDDMMYYYY (cs : List Char) : Option PyDate :=
  if cs.length = 8 && cs.all Char.isDigit then
    let d := digitsVal (cs.take 2)
    let m := digitsVal ((cs.drop 2).take 2)
    let y := digitsVal (cs.drop 4)
    if validDate y m d then some ⟨y, m, d⟩ else none
  else none

/-- Zero-padded decimal rendering (for `strftime('%Y-%m-%d')`). -/
def padNum (width n : Nat) : String :=
  let s := toString n
  String.mk (List.replicate (width - s.length) '0') ++ s

/-- `strftime('%Y-%m-%d')`. -/
def isoFmt (dt : PyDate) : String :=
  padNum 4 dt.year ++ "-" ++ padNum 2 dt.month ++ "-" ++ padNum 2 dt.day

/-- Second half of `validate_cheque_date` (`processing/ocr_extraction.py`
lines 49-66): format-length check, calendar parse, post-dated check, stale
check. -/
def validate_stage2 (cs : List Char) (today : PyDate) : Bool × String :=
  if cs.length ≠ 8 then
    (false, "Invalid format (Expected DDMMYYYY, got " ++ String.mk cs ++ ")")
  else
    match strptimeDDMMYYYY cs with
    | none => (false, "Invalid calendar date (e.g., Feb 30th)")
    | some cheque_date =>
      if daysFromCivil today < daysFromCivil cheque_date then
        (false, "Post-dated cheque (Date: " ++ isoFmt cheque_date ++ ")")
      else if daysFromCivil cheque_date + 180 < daysFromCivil today then
        (false, "Stale-dated cheque (Date is older than 180 days)")
      else (true, "Date is valid")

/-- `validate_cheque_date` (`processing/ocr_extraction.py` lines 36-66) on
a string input, with `datetime.now()` replaced by the `today` parameter:
a 6-character string has its 2-digit year suffix mapped through the
century rule (suffix ≤ current 2-digit year → `20`, else `19`) and is then
validated like an 8-character `DDMMYYYY` string; the uncaught `ValueError`
of `int(date_str[4:])` on a non-digit suffix is `Except.error`. -/
def validate_cheque_date (date_str : String) (today : PyDate) :
    Except String (Bool × String) :=
  let cs0 := date_str.data
  if cs0.length = 6 then
    match pyIntDigits (cs0.drop 4) with
    | none => Except.error "ValueError: invalid literal for int()"
    | some year_suffix =>
      let century := if year_suffix ≤ today.year % 100 then ['2', '0'] else ['1', '9']
      Except.ok (validate_stage2 (cs0.take 4 ++ century ++ cs0.drop 4) today)
  else Except.ok (validate_stage2 cs0 today)


/-- Fraud-oracle fixture on which every delegated check passes. -/
def passingFraudOracles : FraudOracles :=
  { tamperLLM := Except.ok (false, "No signs of tampering."),
    behaviorLLM := Except.ok (false, "Transaction is consistent with history."),
    refSigImage := some 9,
    sigLLM := Except.ok (true, "Signatures match.") }

/-- Run fixture whose readability check fails. -/
def exQualityFailO : Oracles :=
  { cheque_id := "cheque-aaaa0001",
    readabilityLLM := Except.ok (false, "Image is too dark"),
    extraction := {},
    fraud := passingFraudOracles }

/-- Run fixture whose extraction reports an error. -/
def exExtractFailO : Oracles :=
  { cheque_id := "cheque-aaaa0002",
    readabilityLLM := Except.ok (true, "Quality is good"),
    extraction := { error := some "Gemini Vision returned malformed JSON" },
    fraud := passingFraudOracles }

/-- Run fixture whose tampering check flags fraud while every other check
passes (the signature check is skipped: no extracted signature region). -/
def exTamperedO : Oracles :=
  { cheque_id := "cheque-aaaa0003",
    readabilityLLM := Except.ok (true, "Quality is good"),
    extraction :=
      { amount := some "50.00", payee := some "Carol",
        payer_account_number := some "12345678", account_number := some "12345678",
        is_date_valid := some true, is_amount_consistent := some true },
    fraud :=
      { passingFraudOracles with tamperLLM := Except.ok (true, "Mismatched fonts in amount.") } }

/-- Run fixture reaching account validation with a valid account number. -/
def exApproveO : Oracles :=
  { cheque_id := "cheque-aaaa0004",
    readabilityLLM := Except.ok (true, "Quality is good"),
    extraction :=
      { amount := some "100.00", payee := some "Bob",
        payer_account_number := some "12345678", account_number := some "12345678",
        is_date_valid := some true, is_amount_consistent := some true },
    fraud := passingFraudOracles }

/-- Run fixture reaching account validation with an account number the mock
validator rejects. -/
def exRejectO : Oracles :=
  { cheque_id := "cheque-aaaa0005",
    readabilityLLM := Except.ok (true, "Quality is good"),
    extraction :=
      { amount := some "100.00", payee := some "Bob",
        payer_account_number := some "99999999", account_number := some "12345678",
        is_date_valid := some true, is_amount_consistent := some true },
    fraud := passingFraudOracles }

/-- Aggregation-entry state on which all five checks run and pass. -/
def exAllPassState : ChequeState :=
  { project_root := "proot", image := 3,
    cheque_data :=
      { amount := some "10.00", payee := some "Pat",
        payer_account_number := some "12345678", account_number := some "12345678",
        is_date_valid := some true, is_amount_consistent := some true },
    signature_image := some 4, amount_in_words := none,
    audit_trail := ⟨"cheque-aaaa0006", [], []⟩,
    is_readable := true, fraud_detected := false, final_decision := none, feedback := [] }

/-- Aggregation-entry state whose extracted account number has no
payer-directory entry. -/
def exUnknownAcctState : ChequeState :=
  { exAllPassState with
      cheque_data := { exAllPassState.cheque_data with account_number := some "00000000" },
      audit_trail := ⟨"cheque-aaaa0007", [], []⟩ }

/-- Aggregation-entry state without an extracted signature region. -/
def exNoSigState : ChequeState :=
  { exAllPassState with
      signature_image := none,
      audit_trail := ⟨"cheque-aaaa0008", [], []⟩ }

/-- Effect of the date-validity check on the running
`(audit_trail, fraud_found)` pair. -/
theorem dateStep_eq (cd : ChequeData) (p : AuditTrail × Bool) :
    dateStep cd p =
      (⟨p.1.cheque_id, p.1.logs,
        p.1.anomalies ++
          (if dateBad cd then
              [anomE "Date Validation"
                (cd.date_validation_reason.getD "The extracted date is invalid.")]
            else [])⟩,
       p.2 || dateBad cd) := by
  cases hd : dateBad cd <;> simp [dateStep, AuditTrail.highlight_anomaly, hd]

/-- Effect of the amount-consistency check on the running pair. -/
theorem amountStep_eq (cd : ChequeData) (p : AuditTrail × Bool) :
    amountStep cd p =
      (⟨p.1.cheque_id, p.1.logs,
        p.1.anomalies ++
          (if amountBad cd then
              [anomE "Amount Verification" (cd.validation_reason.getD "Amounts do not match.")]
            else [])⟩,
       p.2 || amountBad cd) := by
  cases ha : amountBad cd <;> simp [amountStep, AuditTrail.highlight_anomaly, ha]

/-- Effect of the tampering check on the running pair. -/
theorem tamperStep_eq (o : FraudOracles) (p : AuditTrail × Bool) :
    tamperStep o p =
      (⟨p.1.cheque_id, p.1.logs,
        p.1.anomalies ++
          (if (tamperRes o).1 then [anomE "Tampering Detection" (tamperRes o).2] else [])⟩,
       p.2 || (tamperRes o).1) := by
  cases ht : (tamperRes o).1 <;> simp [tamperStep, AuditTrail.highlight_anomaly, ht]

/-- Effect of the behavioral-anomaly check on the running pair. -/
theorem behaviorStep_eq (cd : ChequeData) (o : FraudOracles) (p : AuditTrail × Bool) :
    behaviorStep cd o p =
      (⟨p.1.cheque_id, p.1.logs,
        p.1.anomalies ++
          (if (behaviorRes cd o).1 then [anomE "Behavior Analysis" (behaviorRes cd o).2] else [])⟩,
       p.2 || (behaviorRes cd o).1) := by
  cases hb : (behaviorRes cd o).1 <;> simp [behaviorStep, AuditTrail.highlight_anomaly, hb]

/-- Effect of the signature-verification block on the running pair,
expressed through the path classification `sigOutcome`. -/
theorem sigStep_eq (cd : ChequeData) (sig : Option Image) (pr : String) (o : FraudOracles)
    (p : AuditTrail × Bool) :
    sigStep cd sig pr o p =
      (⟨p.1.cheque_id, p.1.logs ++ sigLogsDelta cd sig pr o,
        p.1.anomalies ++ sigAnomsDelta cd sig pr o⟩,
       p.2 || sigBad cd sig pr o) := by
  rcases sig with _ | sigImg <;>
  rcases hpan : cd.payer_account_number with _ | acct <;>
  simp only [sigStep, sigLogsDelta, sigAnomsDelta, sigBad, sigOutcome, hpan]
  case none.none => simp
  case none.some => simp
  case some.none => simp
  case some.some =>
    by_cases hacct : acct = ""
    · simp [hacct]
    · rcases hdb : dbGet PAYER_DATABASE (pyStrip acct) with _ | rec <;>
      rcases hrf : o.refSigImage with _ | refImg <;>
      rcases hsl : o.sigLLM with e | ⟨m, rr⟩ <;>
      try cases m
      all_goals
        simp [hacct, hdb, hrf, hsl, AuditTrail.highlight_anomaly, AuditTrail.log_step,
          llm_compare_signatures, sigCmp, String.append_assoc]

/-- Full characterization of one `run_fraud_detection` call: the final flag
is the OR of the five verdicts and the trail gains exactly the per-check
entries followed by the summary step. -/
theorem run_fraud_detection_eq (s : ChequeState) (o : FraudOracles) :
    run_fraud_detection s o =
      { s with
          fraud_detected := fraudOr s.cheque_data s.signature_image s.project_root o,
          audit_trail :=
            ⟨s.audit_trail.cheque_id,
             s.audit_trail.logs ++ fraudLogsDelta s.cheque_data s.signature_image s.project_root o,
             s.audit_trail.anomalies ++
               fraudAnomsDelta s.cheque_data s.signature_image s.project_root o⟩ } := by
  simp only [run_fraud_detection, dateStep_eq, amountStep_eq, tamperStep_eq, behaviorStep_eq,
    sigStep_eq, AuditTrail.log_step, Bool.false_or]
  simp [fraudOr, fraudAnomsDelta, fraudAnomsDelta4, fraudLogsDelta, List.append_assoc]


/-- State reached on the main path after start, quality check and
extraction, fully evaluated. -/
theorem stateAfterExtract_eq (pr : String) (img : Image) (o : Oracles)
    (hq : (llm_check_readability o.readabilityLLM).1 = true)
    (he : extractionFailed o.extraction = false) :
    stateAfterExtract pr img o =
      { project_root := pr, image := img, cheque_data := o.extraction,
        signature_image := o.extraction.signature_image,
        amount_in_words := o.extraction.amount_in_words,
        audit_trail :=
          ⟨o.cheque_id,
           [logE "Start" "Success" "Image data received.",
            logE "Image Quality Check" "Success" "Gemini approved image quality.",
            logE "Extraction & Validation" "Success" "Data extracted and validated."],
           []⟩,
        is_readable := true, fraud_detected := false, final_decision := none,
        feedback := [] } := by
  simp [stateAfterExtract, start_processing, check_image_quality, extract_data, initialState,
    hq, he, AuditTrail.log_step, AuditTrail.highlight_anomaly]

/-- On a readable image with a complete extraction, the workflow reaches
fraud aggregation and then terminates through `manual_review` or
`validate_and_process` according to `route_after_fraud_check`. -/
theorem runWorkflow_main_path (pr : String) (img : Image) (o : Oracles)
    (hq : (llm_check_readability o.readabilityLLM).1 = true)
    (he : extractionFailed o.extraction = false) :
    runWorkflow pr img o =
      (if (run_fraud_detection (stateAfterExtract pr img o) o.fraud).fraud_detected then
        manual_review_node (run_fraud_detection (stateAfterExtract pr img o) o.fraud)
      else validate_and_process (run_fraud_detection (stateAfterExtract pr img o) o.fraud)) := by
  simp only [runWorkflow, stateAfterExtract]
  simp [start_processing, check_image_quality, extract_data, initialState, hq, he,
    route_after_quality_check, route_after_extraction, route_after_fraud_check,
    AuditTrail.log_step, AuditTrail.highlight_anomaly]

/-- C1: on every run that reaches fraud aggregation, `fraud_detected` is
exactly the OR of the five check verdicts (the signature verdict being the
fraud-setting paths of the signature block), `fraud_detected = true`
forces the terminal decision MANUAL_REVIEW, and the aggregation step's
trail shows every check's contribution regardless of earlier failures
(no short-circuit): its anomaly list is the full per-check delta and its
log ends with the always-written summary step. -/
theorem fraud_aggregation_or_semantics (pr : String) (img : Image) (o : Oracles)
    (hq : (llm_check_readability o.readabilityLLM).1 = true)
    (he : extractionFailed o.extraction = false) :
    (runWorkflow pr img o).fraud_detected =
      fraudOr o.extraction o.extraction.signature_image pr o.fraud
    ∧ ((runWorkflow pr img o).fraud_detected = true →
        (runWorkflow pr img o).final_decision = some "MANUAL_REVIEW")
    ∧ (run_fraud_detection (stateAfterExtract pr img o) o.fraud).audit_trail.anomalies =
        fraudAnomsDelta o.extraction o.extraction.signature_image pr o.fraud
    ∧ (run_fraud_detection (stateAfterExtract pr img o) o.fraud).audit_trail.logs =
        [logE "Start" "Success" "Image data received.",
         logE "Image Quality Check" "Success" "Gemini approved image quality.",
         logE "Extraction & Validation" "Success" "Data extracted and validated."] ++
        fraudLogsDelta o.extraction o.extraction.signature_image pr o.fraud := by
  have hse := stateAfterExtract_eq pr img o hq he
  refine ⟨?_, ?_, ?_, ?_⟩
  · rw [runWorkflow_main_path pr img o hq he, run_fraud_detection_eq]
    cases hF : fraudOr o.extraction o.extraction.signature_image pr o.fraud <;>
      cases hv : (validate_account_details (o.extraction.payer_account_number.getD "")).1 <;>
      simp [hse, hF, hv, manual_review_node, validate_and_process]
  · rw [runWorkflow_main_path pr img o hq he, run_fraud_detection_eq]
    cases hF : fraudOr o.extraction o.extraction.signature_image pr o.fraud <;>
      cases hv : (validate_account_details (o.extraction.payer_account_number.getD "")).1 <;>
      simp [hse, hF, hv, manual_review_node, validate_and_process]
  · rw [run_fraud_detection_eq]
    simp [hse]
  · rw [run_fraud_detection_eq]
    simp [hse]

/-- C1 witness: a concrete run whose tampering check flags fraud ends with
`fraud_detected = true` and decision MANUAL_REVIEW. -/
theorem fraud_aggregation_or_semantics_witness :
    (runWorkflow "proot" 7 exTamperedO).fraud_detected = true
    ∧ (runWorkflow "proot" 7 exTamperedO).final_decision = some "MANUAL_REVIEW" := by
  have h := fraud_aggregation_or_semantics "proot" 7 exTamperedO (by decide) (by decide)
  have hf : (runWorkflow "proot" 7 exTamperedO).fraud_detected = true := by
    rw [h.1]; decide
  exact ⟨hf, h.2.1 hf⟩

/-- C2 counterexample: on a concrete run whose quality check fails, the
final decision is not MANUAL_REVIEW — `final_decision` is never set, so
the run ends with no decision at all. -/
theorem quality_fail_decision_unset_counterexample :
    (llm_check_readability exQualityFailO.readabilityLLM).1 = false
    ∧ (runWorkflow "proot" 2 exQualityFailO).final_decision ≠ some "MANUAL_REVIEW"
    ∧ (runWorkflow "proot" 2 exQualityFailO).final_decision = none := by decide

/-- C2 (amended): on every run whose quality check fails, the workflow
terminates before extraction with an unset decision (`final_decision`
stays absent, not MANUAL_REVIEW), an empty feedback list, exactly one
`Image Quality` anomaly, and only the `Start` step logged. -/
theorem quality_fail_terminates_without_decision (pr : String) (img : Image) (o : Oracles)
    (msg : String) (hq : llm_check_readability o.readabilityLLM = (false, msg)) :
    (runWorkflow pr img o).final_decision = none
    ∧ (runWorkflow pr img o).feedback = []
    ∧ (runWorkflow pr img o).audit_trail.anomalies = [anomE "Image Quality" msg]
    ∧ (runWorkflow pr img o).audit_trail.logs = [logE "Start" "Success" "Image data received."] := by
  simp [runWorkflow, start_processing, check_image_quality, initialState, hq,
    route_after_quality_check, AuditTrail.log_step, AuditTrail.highlight_anomaly]

/-- C2 witness: the amended statement evaluated on a concrete unreadable
image. -/
theorem quality_fail_terminates_without_decision_witness :
    (runWorkflow "proot" 2 exQualityFailO).final_decision = none
    ∧ (runWorkflow "proot" 2 exQualityFailO).feedback = []
    ∧ (runWorkflow "proot" 2 exQualityFailO).audit_trail.anomalies =
        [anomE "Image Quality" "Image is too dark"] := by
  have h := quality_fail_terminates_without_decision "proot" 2 exQualityFailO
    "Image is too dark" (by decide)
  exact ⟨h.1, h.2.1, h.2.2.1⟩

/-- C3 counterexample: in a concrete aggregation run where all five checks
execute and pass, the trail gains no anomaly entry and only the signature
success log plus the final summary — the passing date, amount, tampering
and behavioral checks leave no individual audit record, contradicting the
claim that every check logs its outcome. -/
theorem all_pass_run_lacks_individual_records :
    (run_fraud_detection exAllPassState passingFraudOracles).audit_trail.anomalies = []
    ∧ (run_fraud_detection exAllPassState passingFraudOracles).audit_trail.logs =
        [logE "Signature Verification" "Success" "Signatures match.",
         logE "Fraud Detection" "Completed" "Fraud found: False"] := by decide

/-- C3 (amended): each failing check appends exactly one anomaly entry and
the signature check appends one success log when it matches; passing
date/amount/tampering/behavior checks append nothing, and the summary step
is always the last log — the trail delta of one aggregation call is
exactly `fraudAnomsDelta` and `fraudLogsDelta`. -/
theorem fraud_check_audit_record_policy (s : ChequeState) (o : FraudOracles) :
    (run_fraud_detection s o).audit_trail.anomalies =
      s.audit_trail.anomalies ++ fraudAnomsDelta s.cheque_data s.signature_image s.project_root o
    ∧ (run_fraud_detection s o).audit_trail.logs =
      s.audit_trail.logs ++ fraudLogsDelta s.cheque_data s.signature_image s.project_root o := by
  rw [run_fraud_detection_eq]
  exact ⟨rfl, rfl⟩

/-- C4 counterexample: on a concrete non-empty trail whose formatter
capability fails, `generate_llm_summary_report` returns the propagated
failure, not a deterministic fallback string. -/
theorem summary_report_failure_propagates :
    (AuditTrail.mk "cheque-aaaa0009" [logE "Start" "Success" "Image data received."]
        []).generate_llm_summary_report (fun _ _ _ => Except.error "LLM service unavailable") =
      Except.error "LLM service unavailable" := rfl

/-- C4 (amended): with zero step-log entries the summary is the fixed
string "No processing steps were logged."; with a non-empty log the
formatter is invoked on the joined logs and anomalies and any formatter
failure is propagated unchanged (there is no error fallback). -/
theorem summary_report_behavior (t : AuditTrail)
    (llm : String → String → String → Except String String) :
    (t.logs = [] →
      t.generate_llm_summary_report llm = Except.ok "No processing steps were logged.")
    ∧ (∀ e : String, t.logs ≠ [] →
        llm t.cheque_id (String.intercalate "\n" t.logs)
          (if t.anomalies = [] then "None" else String.intercalate "\n" t.anomalies) =
          Except.error e →
        t.generate_llm_summary_report llm = Except.error e) := by
  constructor
  · intro h; simp [AuditTrail.generate_llm_summary_report, h]
  · intro e h hl; simp [AuditTrail.generate_llm_summary_report, h, hl]

/-- C4 witness: the amended statement evaluated on an empty trail and on a
one-entry trail with a failing formatter. -/
theorem summary_report_behavior_witness :
    (AuditTrail.mk "cheque-aaaa0010" [] []).generate_llm_summary_report
        (fun _ _ _ => Except.ok "fine") = Except.ok "No processing steps were logged."
    ∧ (AuditTrail.mk "cheque-aaaa0011" [logE "Start" "Success" "Image data received."]
        []).generate_llm_summary_report (fun _ _ _ => Except.error "down") =
        Except.error "down" := by
  constructor
  · exact (summary_report_behavior (AuditTrail.mk "cheque-aaaa0010" [] [])
      (fun _ _ _ => Except.ok "fine")).1 rfl
  · exact (summary_report_behavior
      (AuditTrail.mk "cheque-aaaa0011" [logE "Start" "Success" "Image data received."] [])
      (fun _ _ _ => Except.error "down")).2 "down" (by decide) rfl

/-- C5: the date validator maps a 6-digit string through the two-digit
century rule (suffix ≤ the current two-digit year ↦ `20`, larger ↦ `19`)
and then validates it as an 8-character `DDMMYYYY` string; an 8-character
string parsing to a real calendar date is rejected as post-dated when
after today and as stale when more than 180 days before today, and is
accepted otherwise; digits that do not form a real calendar date are
rejected with the calendar-date reason. -/
theorem date_validator_spec (today : PyDate) :
    (∀ s : String, s.data.length = 6 → s.data.all Char.isDigit = true →
      validate_cheque_date s today =
        Except.ok (validate_stage2
          (s.data.take 4 ++
            (if digitsVal (s.data.drop 4) ≤ today.year % 100 then ['2', '0'] else ['1', '9']) ++
            s.data.drop 4) today))
    ∧ (∀ s : String, ∀ cd : PyDate, s.data.length = 8 → strptimeDDMMYYYY s.data = some cd →
        validate_cheque_date s today =
          Except.ok
            (if daysFromCivil today < daysFromCivil cd then
              (false, "Post-dated cheque (Date: " ++ isoFmt cd ++ ")")
            else if daysFromCivil cd + 180 < daysFromCivil today then
              (false, "Stale-dated cheque (Date is older than 180 days)")
            else (true, "Date is valid")))
    ∧ (∀ s : String, s.data.length = 8 → strptimeDDMMYYYY s.data = none →
        validate_cheque_date s today = Except.ok (false, "Invalid calendar date (e.g., Feb 30th)")) := by
  refine ⟨?_, ?_, ?_⟩
  · intro s h6 hdig
    have hne : (s.data.drop 4).isEmpty = false := by
      have hlen : (s.data.drop 4).length = 2 := by simp [List.length_drop, h6]
      cases hh : (s.data.drop 4) with
      | nil => rw [hh] at hlen; simp at hlen
      | cons a l => simp
    have hall : (s.data.drop 4).all Char.isDigit = true := by
      rw [List.all_eq_true] at hdig ⊢
      exact fun c hc => hdig c (List.mem_of_mem_drop hc)
    simp [validate_cheque_date, h6, pyIntDigits, hne, hall]
  · intro s cd h8 hp
    simp [validate_cheque_date, h8, validate_stage2, hp]
  · intro s h8 hp
    simp [validate_cheque_date, h8, validate_stage2, hp]

/-- C5 witness: with today = 2024-01-15, "010124" is valid (mapped to
01/01/2024), "30022024" (Feb 30) fails with the calendar-date reason,
"01012025" is post-dated and "01072023" is stale. -/
theorem date_validator_spec_witness :
    validate_cheque_date "010124" ⟨2024, 1, 15⟩ = Except.ok (true, "Date is valid")
    ∧ validate_cheque_date "30022024" ⟨2024, 1, 15⟩ =
        Except.ok (false, "Invalid calendar date (e.g., Feb 30th)")
    ∧ validate_cheque_date "01012025" ⟨2024, 1, 15⟩ =
        Except.ok (false, "Post-dated cheque (Date: 2025-01-01)")
    ∧ validate_cheque_date "01072023" ⟨2024, 1, 15⟩ =
        Except.ok (false, "Stale-dated cheque (Date is older than 180 days)") := by
  have h := date_validator_spec ⟨2024, 1, 15⟩
  refine ⟨?_, h.2.2 "30022024" (by decide) (by decide), ?_, ?_⟩
  · have h1 := h.1 "010124" (by decide) (by decide)
    rw [h1]; decide
  · have h2 := h.2.1 "01012025" ⟨2025, 1, 1⟩ (by decide) (by decide)
    rw [h2]; decide
  · have h3 := h.2.1 "01072023" ⟨2023, 7, 1⟩ (by decide) (by decide)
    rw [h3]; decide

/-- C6: on every run whose extraction reports an error or lacks a required
field, the step is logged as Failed, the decision is MANUAL_REVIEW, and no
downstream step runs: the trail holds exactly the start, quality and
failed-extraction logs, no anomalies, no fraud flag and no feedback. -/
theorem extraction_failure_manual_review (pr : String) (img : Image) (o : Oracles)
    (hq : (llm_check_readability o.readabilityLLM).1 = true)
    (he : extractionFailed o.extraction = true) :
    (runWorkflow pr img o).final_decision = some "MANUAL_REVIEW"
    ∧ (runWorkflow pr img o).audit_trail.logs =
        [logE "Start" "Success" "Image data received.",
         logE "Image Quality Check" "Success" "Gemini approved image quality.",
         logE "Extraction & Validation" "Failed"
           (o.extraction.error.getD "Gemini Vision failed to extract/validate all key fields.")]
    ∧ (runWorkflow pr img o).audit_trail.anomalies = []
    ∧ (runWorkflow pr img o).fraud_detected = false
    ∧ (runWorkflow pr img o).feedback = [] := by
  simp [runWorkflow, start_processing, check_image_quality, extract_data, initialState, hq, he,
    route_after_quality_check, route_after_extraction, AuditTrail.log_step,
    AuditTrail.highlight_anomaly]

/-- C6 witness: a concrete run whose extraction reports an error. -/
theorem extraction_failure_manual_review_witness :
    (runWorkflow "proot" 3 exExtractFailO).final_decision = some "MANUAL_REVIEW"
    ∧ (runWorkflow "proot" 3 exExtractFailO).fraud_detected = false
    ∧ (runWorkflow "proot" 3 exExtractFailO).audit_trail.logs =
        [logE "Start" "Success" "Image data received.",
         logE "Image Quality Check" "Success" "Gemini approved image quality.",
         logE "Extraction & Validation" "Failed" "Gemini Vision returned malformed JSON"] := by
  have h := extraction_failure_manual_review "proot" 3 exExtractFailO (by decide) (by decide)
  exact ⟨h.1, h.2.2.2.1, h.2.1⟩

/-- C7: on every run reaching account validation (readable image, complete
extraction, no fraud), a failing account verdict terminates with REJECT
and an Account Validation anomaly, and a passing verdict terminates with
APPROVE and exactly the feedback line "Cheque processed successfully.". -/
theorem account_validation_terminal (pr : String) (img : Image) (o : Oracles)
    (hq : (llm_check_readability o.readabilityLLM).1 = true)
    (he : extractionFailed o.extraction = false)
    (hf : fraudOr o.extraction o.extraction.signature_image pr o.fraud = false) :
    ((validate_account_details (o.extraction.payer_account_number.getD "")).1 = false →
      (runWorkflow pr img o).final_decision = some "REJECT"
      ∧ anomE "Account Validation"
          (validate_account_details (o.extraction.payer_account_number.getD "")).2
          ∈ (runWorkflow pr img o).audit_trail.anomalies)
    ∧ ((validate_account_details (o.extraction.payer_account_number.getD "")).1 = true →
      (runWorkflow pr img o).final_decision = some "APPROVE"
      ∧ (runWorkflow pr img o).feedback = ["Cheque processed successfully."]) := by
  have hse := stateAfterExtract_eq pr img o hq he
  constructor
  · intro hv
    rw [runWorkflow_main_path pr img o hq he, run_fraud_detection_eq]
    simp [hse, hf, hv, validate_and_process, AuditTrail.highlight_anomaly]
  · intro hv
    rw [runWorkflow_main_path pr img o hq he, run_fraud_detection_eq]
    simp [hse, hf, hv, validate_and_process, AuditTrail.log_step]

/-- C7 witness: a concrete rejected run and a concrete approved run. -/
theorem account_validation_terminal_witness :
    ((runWorkflow "proot" 8 exRejectO).final_decision = some "REJECT"
      ∧ anomE "Account Validation" "Invalid or closed account."
          ∈ (runWorkflow "proot" 8 exRejectO).audit_trail.anomalies)
    ∧ ((runWorkflow "proot" 9 exApproveO).final_decision = some "APPROVE"
      ∧ (runWorkflow "proot" 9 exApproveO).feedback = ["Cheque processed successfully."]) := by
  constructor
  · have h := account_validation_terminal "proot" 8 exRejectO (by decide) (by decide) (by decide)
    exact h.1 (by decide)
  · have h := account_validation_terminal "proot" 9 exApproveO (by decide) (by decide) (by decide)
    exact h.2 (by decide)

/-- C8: whenever the extracted account number has no payer-directory entry
(absent, empty, or unknown after stripping), the behavioral check records
a "not found" anomaly and the aggregation ends with `fraud_detected =
true`, regardless of every other check's verdict. -/
theorem unknown_account_flags_fraud (s : ChequeState) (o : FraudOracles)
    (h : pyLookup PAYER_DATABASE s.cheque_data.account_number = none) :
    (run_fraud_detection s o).fraud_detected = true
    ∧ anomE "Behavior Analysis"
        ("Account number '" ++ pyShowOpt s.cheque_data.account_number ++
          "' not found in payer database.")
        ∈ (run_fraud_detection s o).audit_trail.anomalies := by
  have hb : behaviorRes s.cheque_data o =
      (true, "Account number '" ++ pyShowOpt s.cheque_data.account_number ++
        "' not found in payer database.") := by
    simp [behaviorRes, llm_analyze_historical_behavior, h]
  rw [run_fraud_detection_eq]
  constructor
  · simp [fraudOr, hb]
  · simp [fraudAnomsDelta, fraudAnomsDelta4, hb, List.mem_append]

/-- C8 witness: a concrete aggregation run with an unknown account number
while every delegated check passes. -/
theorem unknown_account_flags_fraud_witness :
    (run_fraud_detection exUnknownAcctState passingFraudOracles).fraud_detected = true
    ∧ anomE "Behavior Analysis"
        "Account number '00000000' not found in payer database."
        ∈ (run_fraud_detection exUnknownAcctState passingFraudOracles).audit_trail.anomalies := by
  have h := unknown_account_flags_fraud exUnknownAcctState passingFraudOracles (by decide)
  exact ⟨h.1, h.2⟩

/-- C9: `log_step` appends exactly one entry to the step log and leaves the
anomaly list untouched, `highlight_anomaly` appends exactly one entry to
the anomaly list and leaves the step log untouched, and neither removes,
alters or reorders existing entries (both sequences are extended by a
single trailing element) or changes the cheque id. -/
theorem audit_trail_append_frame (t : AuditTrail) (n st sm src d : String) :
    (t.log_step n st sm).logs = t.logs ++ [logE n st sm]
    ∧ (t.log_step n st sm).anomalies = t.anomalies
    ∧ (t.log_step n st sm).cheque_id = t.cheque_id
    ∧ (t.highlight_anomaly src d).anomalies = t.anomalies ++ [anomE src d]
    ∧ (t.highlight_anomaly src d).logs = t.logs
    ∧ (t.highlight_anomaly src d).cheque_id = t.cheque_id :=
  ⟨rfl, rfl, rfl, rfl, rfl, rfl⟩

/-- C10: when the extracted signature region is absent or the payer account
number is missing or empty, the signature block is skipped entirely: it
contributes no anomaly and no log entry, the trail delta consists of the
four other checks' entries plus the summary step only, and
`fraud_detected` is the OR of just those four verdicts. -/
theorem signature_check_skipped (s : ChequeState) (o : FraudOracles)
    (h : s.signature_image = none ∨ s.cheque_data.payer_account_number = none ∨
      s.cheque_data.payer_account_number = some "") :
    (run_fraud_detection s o).fraud_detected =
      (dateBad s.cheque_data || amountBad s.cheque_data || (tamperRes o).1 ||
        (behaviorRes s.cheque_data o).1)
    ∧ sigAnomsDelta s.cheque_data s.signature_image s.project_root o = []
    ∧ sigLogsDelta s.cheque_data s.signature_image s.project_root o = []
    ∧ (run_fraud_detection s o).audit_trail.anomalies =
        s.audit_trail.anomalies ++ fraudAnomsDelta4 s.cheque_data o
    ∧ (run_fraud_detection s o).audit_trail.logs =
        s.audit_trail.logs ++
          [logE "Fraud Detection" "Completed"
            ("Fraud found: " ++
              (if dateBad s.cheque_data || amountBad s.cheque_data || (tamperRes o).1 ||
                  (behaviorRes s.cheque_data o).1 then "True" else "False"))] := by
  have hso : sigOutcome s.cheque_data s.signature_image s.project_root o =
      SigOutcome.skipped := by
    rcases h with h | h | h
    · cases hp : s.cheque_data.payer_account_number <;> simp [sigOutcome, h, hp]
    · cases hs : s.signature_image <;> simp [sigOutcome, h, hs]
    · cases hs : s.signature_image <;> simp [sigOutcome, h, hs]
  have hsb : sigBad s.cheque_data s.signature_image s.project_root o = false := by
    simp [sigBad, hso]
  have hsa : sigAnomsDelta s.cheque_data s.signature_image s.project_root o = [] := by
    simp [sigAnomsDelta, hso]
  have hsl : sigLogsDelta s.cheque_data s.signature_image s.project_root o = [] := by
    simp [sigLogsDelta, hso]
  rw [run_fraud_detection_eq]
  refine ⟨by simp [fraudOr, hsb], hsa, hsl, by simp [fraudAnomsDelta, hsa], ?_⟩
  simp [fraudLogsDelta, hsl, fraudOr, hsb]

/-- C10 witness: a concrete aggregation run without an extracted signature
writes only the summary log and no anomaly. -/
theorem signature_check_skipped_witness :
    (run_fraud_detection exNoSigState passingFraudOracles).fraud_detected = false
    ∧ (run_fraud_detection exNoSigState passingFraudOracles).audit_trail.anomalies = []
    ∧ (run_fraud_detection exNoSigState passingFraudOracles).audit_trail.logs =
        [logE "Fraud Detection" "Completed" "Fraud found: False"] := by
  have h := signature_check_skipped exNoSigState passingFraudOracles (Or.inl (by decide))
  refine ⟨h.1.trans (by decide), ?_, ?_⟩
  · rw [h.2.2.2.1]; decide
  · rw [h.2.2.2.2]; decide

end ChequeProc
